import Mathlib

/-!
Verification of the sigset bindings: a typed wrapper around the OS
signal-set primitive.  `SigSet` wraps the native `sigset_t` bitmask and
delegates membership operations to the OS collaborator; `Signal` wraps a
raw platform signal number.  The OS collaborator itself is out of scope
of the repository and is modelled here from the spec contract: each
primitive returns a status code where a negative value means failure and
a non-negative value means success, with the test-member primitive
additionally encoding presence in a non-zero result.
-/

namespace SigsetRs

/-- Modelled from the spec: the OS-native signal-set representation,
a fixed-size bitmask recording presence or absence of each signal
number.  Modelled as the finite set of member signal numbers. -/
abbrev sigset_t : Type := Finset ℤ

/-- Modelled from the spec: whether a raw signal number is inside the
valid range that the OS set representation can hold (a small positive
integer with an implementation-defined upper bound; 1 to 64 on the
target platform). -/
def validSig (sig : ℤ) : Prop := 1 ≤ sig ∧ sig ≤ 64

instance (sig : ℤ) : Decidable (validSig sig) := by
  unfold validSig
  infer_instance

/-- Modelled from the spec: the OS initialize-to-empty primitive.
Returns the initialized representation together with its status code;
it cannot fail. -/
def sigemptyset : sigset_t × ℤ := ((∅ : Finset ℤ), 0)

/-- Modelled from the spec: the OS initialize-to-full primitive.
Returns a set holding every signal number the representation can hold,
together with its status code; it cannot fail. -/
def sigfillset : sigset_t × ℤ := (Finset.Icc (1 : ℤ) 64, 0)

/-- Modelled from the spec: the OS add-member primitive.  On a valid
signal number it sets the member bit and returns a non-negative status;
on an invalid number it leaves the set unchanged and returns a negative
status. -/
def sigaddset (s : sigset_t) (sig : ℤ) : sigset_t × ℤ :=
  if validSig sig then (insert sig (s : Finset ℤ), 0) else (s, -1)

/-- Modelled from the spec: the OS remove-member primitive.  On a valid
signal number it clears the member bit and returns a non-negative
status; on an invalid number it leaves the set unchanged and returns a
negative status. -/
def sigdelset (s : sigset_t) (sig : ℤ) : sigset_t × ℤ :=
  if validSig sig then ((s : Finset ℤ).erase sig, 0) else (s, -1)

/-- Modelled from the spec: the OS test-member primitive.  On a valid
signal number the non-negative status encodes presence (non-zero means
present); on an invalid number the status is negative. -/
def sigismember (s : sigset_t) (sig : ℤ) : ℤ :=
  if validSig sig then (if sig ∈ (s : Finset ℤ) then 1 else 0) else -1

/-- The typed signal identifier, wrapping a raw platform signal
number (`c_int`). -/
structure Signal where
  raw : ℤ
deriving DecidableEq, Repr

/-- The zero-data error marker produced when the OS rejects a signal
number. -/
structure InvalidSignalError where
deriving DecidableEq, Repr

/-- The typed signal-set wrapper around the OS-native representation. -/
structure SigSet where
  set : sigset_t

namespace Signal

/-- Embeds `Signal::new`: constructs from any integer without validation. -/
def new (sig : ℤ) : Signal := ⟨sig⟩

/-- Embeds `Signal::into_raw`: returns the wrapped number unchanged. -/
def into_raw (s : Signal) : ℤ := s.raw

/-- Modelled from the spec: the platform signal-number catalog entry
for the abort signal (number 6 on the target platform). -/
def SIGABRT : Signal := Signal.new 6

/-- Modelled from the spec: the platform signal-number catalog entry
for the IOT alias of the abort signal (also number 6 on the target
platform). -/
def SIGIOT : Signal := Signal.new 6

/-- Modelled from the spec: the platform catalog entry for the
interrupt signal (number 2). -/
def SIGINT : Signal := Signal.new 2

/-- Modelled from the spec: the platform catalog entry for the
termination signal (number 15). -/
def SIGTERM : Signal := Signal.new 15

/-- Modelled from the spec: the platform catalog entry for the kill
signal (number 9). -/
def SIGKILL : Signal := Signal.new 9

/-- Modelled from the spec: the platform catalog entry for the stop
signal (number 19). -/
def SIGSTOP : Signal := Signal.new 19

end Signal

/-- A signal whose raw number the OS set representation accepts. -/
def validSignal (s : Signal) : Prop := validSig s.into_raw

instance (s : Signal) : Decidable (validSignal s) := by
  unfold validSignal
  infer_instance

namespace SigSet

/-- Embeds `SigSet::empty`: initializes a fresh set through the OS
initialize-to-empty primitive. -/
def empty : SigSet := { set := sigemptyset.1 }

/-- Embeds `SigSet::all`: initializes a fresh set through the OS
initialize-to-full primitive. -/
def all : SigSet := { set := sigfillset.1 }

/-- Embeds `SigSet::from_raw`: wraps an already-initialized native
representation unchanged. -/
def from_raw (s : sigset_t) : SigSet := { set := s }

/-- Embeds `SigSet::into_raw`: returns the native representation unchanged. -/
def into_raw (s : SigSet) : sigset_t := s.set

/-- Embeds `SigSet::add`: delegates to the OS add-member primitive and maps a
negative status to `InvalidSignalError`.  The mutated receiver is
returned alongside the result. -/
def add (s : SigSet) (sig : Signal) : SigSet × Except InvalidSignalError Unit :=
  let r := sigaddset s.set sig.into_raw
  if r.2 < 0 then ({ set := r.1 }, .error ⟨⟩) else ({ set := r.1 }, .ok ())

/-- Embeds `SigSet::remove`: delegates to the OS remove-member primitive and
maps a negative status to `InvalidSignalError`.  The mutated receiver
is returned alongside the result. -/
def remove (s : SigSet) (sig : Signal) : SigSet × Except InvalidSignalError Unit :=
  let r := sigdelset s.set sig.into_raw
  if r.2 < 0 then ({ set := r.1 }, .error ⟨⟩) else ({ set := r.1 }, .ok ())

/-- Embeds `SigSet::contains`: delegates to the OS test-member primitive, maps
a negative status to `InvalidSignalError`, and interprets a non-zero
successful status as presence. -/
def contains (s : SigSet) (sig : Signal) : Except InvalidSignalError Bool :=
  let ret := sigismember s.set sig.into_raw
  if ret < 0 then .error ⟨⟩ else .ok (ret != 0)

end SigSet

/-- Claim C1: a freshly constructed empty set reports every valid
signal as absent: `contains` returns `Ok(false)`. -/
theorem empty_contains_false (s : Signal) (h : validSignal s) :
    SigSet.empty.contains s = .ok false := by
  simp [SigSet.empty, SigSet.contains, sigemptyset, sigismember, validSignal] at h ⊢
  simp [h]

/-- Witness for claim C1 at the interrupt signal. -/
theorem empty_contains_false_witness :
    validSignal Signal.SIGINT ∧ SigSet.empty.contains Signal.SIGINT = .ok false :=
  ⟨by decide, empty_contains_false Signal.SIGINT (by decide)⟩

/-- Claim C2: a freshly constructed full set reports every valid signal
as present: `contains` returns `Ok(true)`. -/
theorem all_contains_true (s : Signal) (h : validSignal s) :
    SigSet.all.contains s = .ok true := by
  simp [SigSet.all, SigSet.contains, sigfillset, sigismember, validSignal] at h ⊢
  simp [h, Finset.mem_Icc, h.1, h.2]

/-- Witness for claim C2 at the kill signal. -/
theorem all_contains_true_witness :
    validSignal Signal.SIGKILL ∧ SigSet.all.contains Signal.SIGKILL = .ok true :=
  ⟨by decide, all_contains_true Signal.SIGKILL (by decide)⟩

/-- Claim C3: `add`, `remove` and `contains` report `InvalidSignalError`
exactly when the delegated OS status code is negative and succeed
otherwise; a non-negative test-member status `r` yields `Ok(r != 0)`. -/
theorem error_policy_uniform (S : SigSet) (sig : Signal) :
    ((S.add sig).2 = .error ⟨⟩ ↔ (sigaddset S.set sig.into_raw).2 < 0) ∧
    (¬ (sigaddset S.set sig.into_raw).2 < 0 → (S.add sig).2 = .ok ()) ∧
    ((S.remove sig).2 = .error ⟨⟩ ↔ (sigdelset S.set sig.into_raw).2 < 0) ∧
    (¬ (sigdelset S.set sig.into_raw).2 < 0 → (S.remove sig).2 = .ok ()) ∧
    (S.contains sig = .error ⟨⟩ ↔ sigismember S.set sig.into_raw < 0) ∧
    (¬ sigismember S.set sig.into_raw < 0 →
      S.contains sig = .ok (sigismember S.set sig.into_raw != 0)) := by
  refine ⟨?_, fun h => ?_, ?_, fun h => ?_, ?_, fun h => ?_⟩
  · by_cases hc : (sigaddset S.set sig.into_raw).2 < 0 <;>
      simp [SigSet.add, hc]
  · simp [SigSet.add, h]
  · by_cases hc : (sigdelset S.set sig.into_raw).2 < 0 <;>
      simp [SigSet.remove, hc]
  · simp [SigSet.remove, h]
  · by_cases hc : sigismember S.set sig.into_raw < 0 <;>
      simp [SigSet.contains, hc]
  · simp [SigSet.contains, h]

/-- Witness for claim C3: on the empty set and the interrupt signal
every OS status code is non-negative, so all three operations
succeed. -/
theorem error_policy_uniform_witness :
    (SigSet.empty.add Signal.SIGINT).2 = .ok () ∧
    (SigSet.empty.remove Signal.SIGINT).2 = .ok () ∧
    SigSet.empty.contains Signal.SIGINT =
      .ok (sigismember SigSet.empty.set Signal.SIGINT.into_raw != 0) :=
  ⟨(error_policy_uniform SigSet.empty Signal.SIGINT).2.1 (by decide),
   (error_policy_uniform SigSet.empty Signal.SIGINT).2.2.2.1 (by decide),
   (error_policy_uniform SigSet.empty Signal.SIGINT).2.2.2.2.2 (by decide)⟩

/-- Claim C4: wrapping the raw representation extracted from any set
yields a set observably identical to the original under `contains`. -/
theorem from_raw_into_raw_id (v : SigSet) (s : Signal) :
    (SigSet.from_raw v.into_raw).contains s = v.contains s := rfl

/-- Claim C5: for a valid signal, two successive `add` calls leave
`contains` at `Ok(true)` and two successive `remove` calls leave it at
`Ok(false)`. -/
theorem add_remove_idempotent (S : SigSet) (s : Signal) (h : validSignal s) :
    (((S.add s).1.add s).1.contains s = .ok true ∧
     ((S.remove s).1.remove s).1.contains s = .ok false) := by
  have hv : validSig s.into_raw := h
  constructor
  · simp [SigSet.add, SigSet.contains, sigaddset, sigismember, hv]
  · simp [SigSet.remove, SigSet.contains, sigdelset, sigismember, hv]

/-- Witness for claim C5: double add and double remove of the stop
signal on the empty set. -/
theorem add_remove_idempotent_witness :
    validSignal Signal.SIGSTOP ∧
    (((SigSet.empty.add Signal.SIGSTOP).1.add Signal.SIGSTOP).1.contains
        Signal.SIGSTOP = .ok true ∧
     ((SigSet.empty.remove Signal.SIGSTOP).1.remove Signal.SIGSTOP).1.contains
        Signal.SIGSTOP = .ok false) :=
  ⟨by decide, add_remove_idempotent SigSet.empty Signal.SIGSTOP (by decide)⟩

/-- Claim C6: for distinct valid signals `a` and `b`, adding `a` then
`b` produces the same observable membership under `contains`, at every
signal, as adding `b` then `a`. -/
theorem add_comm_observable (S : SigSet) (a b : Signal)
    (ha : validSignal a) (hb : validSignal b) (_hab : a ≠ b) (t : Signal) :
    ((S.add a).1.add b).1.contains t = ((S.add b).1.add a).1.contains t := by
  have ha2 : validSig a.into_raw := ha
  have hb2 : validSig b.into_raw := hb
  have hset : ((S.add a).1.add b).1.set = ((S.add b).1.add a).1.set := by
    simp [SigSet.add, sigaddset, ha2, hb2]
    exact Finset.Insert.comm _ _ _
  simp [SigSet.contains, hset]

/-- Witness for claim C6: the interrupt and termination signals added
to the empty set in both orders, observed at the interrupt signal. -/
theorem add_comm_observable_witness :
    validSignal Signal.SIGINT ∧ validSignal Signal.SIGTERM ∧
    Signal.SIGINT ≠ Signal.SIGTERM ∧
    ((SigSet.empty.add Signal.SIGINT).1.add Signal.SIGTERM).1.contains
        Signal.SIGINT =
      ((SigSet.empty.add Signal.SIGTERM).1.add Signal.SIGINT).1.contains
        Signal.SIGINT :=
  ⟨by decide, by decide, by decide,
    add_comm_observable SigSet.empty Signal.SIGINT Signal.SIGTERM
      (by decide) (by decide) (by decide) Signal.SIGINT⟩

/-- Claim C7: `Signal::new` wraps any integer without validation and
`into_raw` returns the wrapped number unchanged. -/
theorem new_into_raw_unchanged (n : ℤ) : (Signal.new n).into_raw = n := rfl

/-- Claim C8: the abort and IOT constants alias the same platform
number, compare equal, behave identically under `add`, `remove` and
`contains` on every set, and `Signal` equality is determined solely by
the wrapped raw number. -/
theorem sigabrt_sigiot_alias :
    Signal.SIGABRT = Signal.SIGIOT ∧
    (∀ S : SigSet,
      S.add Signal.SIGABRT = S.add Signal.SIGIOT ∧
      S.remove Signal.SIGABRT = S.remove Signal.SIGIOT ∧
      S.contains Signal.SIGABRT = S.contains Signal.SIGIOT) ∧
    (∀ a b : Signal, a = b ↔ a.into_raw = b.into_raw) := by
  refine ⟨rfl, fun S => ⟨rfl, rfl, rfl⟩, fun a b => ?_⟩
  cases a
  cases b
  simp [Signal.into_raw]

/-- Claim C9: every public operation is a total function whose every
outcome is a defined value of the typed result: `add`, `remove` and
`contains` yield either success or the typed `InvalidSignalError`,
never any other failure mode. -/
theorem no_panic_typed_failure (S : SigSet) (sig : Signal) (n : ℤ) :
    ((S.add sig).2 = .ok () ∨ (S.add sig).2 = .error ⟨⟩) ∧
    ((S.remove sig).2 = .ok () ∨ (S.remove sig).2 = .error ⟨⟩) ∧
    ((∃ b, S.contains sig = .ok b) ∨ S.contains sig = .error ⟨⟩) ∧
    (Signal.new n).into_raw = n ∧
    SigSet.from_raw S.into_raw = S := by
  refine ⟨?_, ?_, ?_, rfl, rfl⟩
  · rcases h : (S.add sig).2 with e | u
    · cases e
      exact Or.inr rfl
    · cases u
      exact Or.inl rfl
  · rcases h : (S.remove sig).2 with e | u
    · cases e
      exact Or.inr rfl
    · cases u
      exact Or.inl rfl
  · rcases h : S.contains sig with e | b
    · cases e
      exact Or.inr rfl
    · exact Or.inl ⟨b, rfl⟩

/-- Claim C10: a failed `add` or `remove` leaves membership unchanged:
after the failing call, `contains` returns the same result as before
at every signal. -/
theorem failed_mutation_atomic (S : SigSet) (sig : Signal) :
    ((S.add sig).2 = .error ⟨⟩ →
      ∀ t : Signal, (S.add sig).1.contains t = S.contains t) ∧
    ((S.remove sig).2 = .error ⟨⟩ →
      ∀ t : Signal, (S.remove sig).1.contains t = S.contains t) := by
  have hinv : (sigaddset S.set sig.into_raw).2 < 0 → ¬ validSig sig.into_raw := by
    intro h hv
    simp [sigaddset, hv] at h
  have hinv2 : (sigdelset S.set sig.into_raw).2 < 0 → ¬ validSig sig.into_raw := by
    intro h hv
    simp [sigdelset, hv] at h
  constructor
  · intro herr t
    by_cases hc : (sigaddset S.set sig.into_raw).2 < 0
    · have hnv := hinv hc
      simp [SigSet.add, sigaddset, hnv, hc, SigSet.contains]
    · simp [SigSet.add, hc] at herr
  · intro herr t
    by_cases hc : (sigdelset S.set sig.into_raw).2 < 0
    · have hnv := hinv2 hc
      simp [SigSet.remove, sigdelset, hnv, hc, SigSet.contains]
    · simp [SigSet.remove, hc] at herr

/-- Witness for claim C10: adding and removing the out-of-range raw
number 9999 on the empty set fails and leaves membership at the
interrupt signal unchanged. -/
theorem failed_mutation_atomic_witness :
    ((SigSet.empty.add (Signal.new 9999)).2 = .error ⟨⟩ ∧
      (SigSet.empty.add (Signal.new 9999)).1.contains Signal.SIGINT =
        SigSet.empty.contains Signal.SIGINT) ∧
    ((SigSet.empty.remove (Signal.new 9999)).2 = .error ⟨⟩ ∧
      (SigSet.empty.remove (Signal.new 9999)).1.contains Signal.SIGINT =
        SigSet.empty.contains Signal.SIGINT) :=
  ⟨⟨by rfl,
    (failed_mutation_atomic SigSet.empty (Signal.new 9999)).1 (by rfl)
      Signal.SIGINT⟩,
   ⟨by rfl,
    (failed_mutation_atomic SigSet.empty (Signal.new 9999)).2 (by rfl)
      Signal.SIGINT⟩⟩

end SigsetRs
